import Mathlib

/-
Verification of the request/response transformation-and-relay engine of the
munchFORsen proxy (src/proxy.py).  The Python source is shallowly embedded:
JSON values become an inductive type, Python dicts become insertion-ordered
association lists with first-match lookup, and the pure pipeline steps
(header merge and filter, body transforms, token-response handling, the
streaming wrapper, the request-preparation prefixes of the live handler and
of replay) become total Lean functions over those values.  External
collaborators (the HTTP client, the json library parser, the filesystem)
enter as explicit inputs describing their observable outcomes.
-/

/-- A JSON value as handled by the json module: null, booleans, numbers
(integers suffice for the properties verified here), strings, arrays, and
objects whose fields form an insertion-ordered list of string keys.  Python
dicts cannot hold duplicate keys; lookups below take the first match so the
embedding agrees with Python on every value the program can build. -/
inductive Json where
  | null : Json
  | bool (b : Bool) : Json
  | num (n : Int) : Json
  | str (s : String) : Json
  | arr (elems : List Json) : Json
  | obj (fields : List (String × Json)) : Json

/-- Lookup in an insertion-ordered association list, first match wins;
embeds Python dict subscripting and the membership test on keys. -/
def dictLookup {α : Type} : List (String × α) → String → Option α
  | [], _ => none
  | p :: rest, k => if p.1 = k then some p.2 else dictLookup rest k

/-- Assignment on an insertion-ordered association list: an existing key is
updated in place at its position, a new key is appended at the end; embeds
Python dict item assignment. -/
def dictSet {α : Type} : List (String × α) → String → α → List (String × α)
  | [], k, v => [(k, v)]
  | p :: rest, k, v => if p.1 = k then (k, v) :: rest else p :: dictSet rest k v

/-- Deletion of the first entry carrying the given key; embeds Python del on
a dict, where the key occurs at most once. -/
def delFirstKey {α : Type} : List (String × α) → String → List (String × α)
  | [], _ => []
  | p :: rest, k => if p.1 = k then rest else p :: delFirstKey rest k

/-- The flatten test of flatten_content_in_body (src/proxy.py lines 459 to
467): a content value matches when it is a single-element list whose sole
element is an object with field type equal to the string "text" and with a
text field present; the result is that text field value. -/
def contentFlatten : Json → Option Json
  | Json.arr [Json.obj f] =>
      match dictLookup f "type" with
      | some (Json.str t) => if t = "text" then dictLookup f "text" else none
      | _ => none
  | _ => none

/-- Per-message step of flatten_content_in_body: when the message is an
object with a content field matching the flatten test, the content field is
replaced in place by the extracted text value; otherwise the message is
returned unchanged. -/
def flattenMessage : Json → Json
  | Json.obj f =>
      match dictLookup f "content" with
      | some c =>
          match contentFlatten c with
          | some t => Json.obj (dictSet f "content" t)
          | none => Json.obj f
      | none => Json.obj f
  | m => m

/-- flatten_content_in_body (src/proxy.py lines 437 to 469): on an object
whose messages field is a list, each message is flattened in place; every
other shape is returned unchanged. -/
def flatten_content_in_body : Json → Json
  | Json.obj f =>
      match dictLookup f "messages" with
      | some (Json.arr ms) =>
          Json.obj (dictSet f "messages" (Json.arr (ms.map flattenMessage)))
      | _ => Json.obj f
  | b => b

/-- Per-message step of replace_tool_roles_in_body: a message object whose
role field is the string tool-call or tool-response gets role user; every
other shape is unchanged. -/
def replaceToolRolesMessage : Json → Json
  | Json.obj f =>
      match dictLookup f "role" with
      | some (Json.str r) =>
          if r = "tool-call" ∨ r = "tool-response" then
            Json.obj (dictSet f "role" (Json.str "user"))
          else Json.obj f
      | _ => Json.obj f
  | m => m

/-- replace_tool_roles_in_body (src/proxy.py lines 471 to 497). -/
def replace_tool_roles_in_body : Json → Json
  | Json.obj f =>
      match dictLookup f "messages" with
      | some (Json.arr ms) =>
          Json.obj (dictSet f "messages" (Json.arr (ms.map replaceToolRolesMessage)))
      | _ => Json.obj f
  | b => b

/-- Per-message step of remove_null_tool_calls_in_body: a message object
with a tool_calls field equal to JSON null loses that key; every other
shape is unchanged. -/
def removeNullToolCallsMessage : Json → Json
  | Json.obj f =>
      match dictLookup f "tool_calls" with
      | some Json.null => Json.obj (delFirstKey f "tool_calls")
      | _ => Json.obj f
  | m => m

/-- remove_null_tool_calls_in_body (src/proxy.py lines 499 to 523). -/
def remove_null_tool_calls_in_body : Json → Json
  | Json.obj f =>
      match dictLookup f "messages" with
      | some (Json.arr ms) =>
          Json.obj (dictSet f "messages" (Json.arr (ms.map removeNullToolCallsMessage)))
      | _ => Json.obj f
  | b => b

/-- The body-transform composition applied by both the live handler
(src/proxy.py lines 759 to 770) and replay (lines 583 to 593), in the fixed
source order flatten, then tool-role remap, then null tool_calls removal,
each step gated by its flag. -/
def applyBodyTransforms (flattenFlag noToolRoles removeNullCalls : Bool) (b : Json) : Json :=
  let b1 := if flattenFlag then flatten_content_in_body b else b
  let b2 := if noToolRoles then replace_tool_roles_in_body b1 else b1
  if removeNullCalls then remove_null_tool_calls_in_body b2 else b2

/-- Header mappings: insertion-ordered lists of name and value pairs,
embedding the Python dicts used for request headers. -/
abbrev Headers := List (String × String)

/-- ASCII lowercase of a string, embedding the Python str lower method on
the ASCII header names handled here. -/
def lowerStr (s : String) : String :=
  String.mk (s.data.map Char.toLower)

/-- ASCII uppercase of a string, embedding the Python str upper method on
the ASCII method names handled here. -/
def upperStr (s : String) : String :=
  String.mk (s.data.map Char.toUpper)

/-- One iteration of the merge loop in merge_headers_with_request
(src/proxy.py lines 421 to 433): find the first existing entry whose name
matches the override name case-insensitively, delete it when the found name
is truthy, then assign the override entry.  The deletion is guarded by
Python truthiness of the found name (the source tests if existing_key, line
430), so a matched empty-string name is not deleted and the assignment then
updates that entry in place. -/
def mergeHeaderStep (merged : Headers) (kv : String × String) : Headers :=
  let base :=
    match merged.find? (fun p => lowerStr p.1 == lowerStr kv.1) with
    | some p => if p.1 = "" then merged else delFirstKey merged p.1
    | none => merged
  dictSet base kv.1 kv.2

/-- merge_headers_with_request (src/proxy.py lines 406 to 435): folds the
merge loop over the override entries in insertion order, starting from a
copy of the request headers. -/
def merge_headers_with_request (requestHeaders overrides : Headers) : Headers :=
  overrides.foldl mergeHeaderStep requestHeaders

/-- The fixed allowlist of essential header names shared verbatim by the
live handler (src/proxy.py lines 774 to 781) and replay (lines 601 to 608). -/
def essential_headers : List String :=
  ["authorization", "content-type", "accept", "user-agent",
   "x-stainless-lang", "x-stainless-package-version", "x-stainless-os",
   "x-stainless-arch", "x-stainless-runtime", "x-stainless-runtime-version",
   "x-stainless-async", "x-stainless-retry-count", "x-stainless-read-timeout",
   "ocp-apim-subscription-key", "trustnest-apim-subscription-key",
   "origin", "access-control-request-method", "access-control-request-headers"]

/-- The header filter loop shared by the live handler (src/proxy.py lines
783 to 785) and replay (lines 610 to 612): keep exactly the entries whose
lowercased name is in the allowlist. -/
def filterEssentialHeaders (hs : Headers) : Headers :=
  hs.filter (fun p => decide (lowerStr p.1 ∈ essential_headers))

/-- Escape of one character inside a JSON string literal, covering the
escapes the json module emits for the characters arising here. -/
def escapeJsonChar (c : Char) : String :=
  if c = '"' then "\\\""
  else if c = '\\' then "\\\\"
  else if c = '\n' then "\\n"
  else if c = '\t' then "\\t"
  else if c = '\r' then "\\r"
  else String.singleton c

/-- Escape of a JSON string body. -/
def escapeJsonString (s : String) : String :=
  String.join (s.toList.map escapeJsonChar)

mutual
/-- Compact serialization of a JSON value with the default separators of
json.dumps: a comma-space between items and a colon-space after keys. -/
def jsonDumps : Json → String
  | Json.null => "null"
  | Json.bool true => "true"
  | Json.bool false => "false"
  | Json.num n => toString n
  | Json.str s => "\"" ++ escapeJsonString s ++ "\""
  | Json.arr xs => "[" ++ jsonDumpsList xs ++ "]"
  | Json.obj fs => "\x7b" ++ jsonDumpsObj fs ++ "\x7d"

/-- Serialization of the items of a JSON array. -/
def jsonDumpsList : List Json → String
  | [] => ""
  | [x] => jsonDumps x
  | x :: y :: rest => jsonDumps x ++ ", " ++ jsonDumpsList (y :: rest)

/-- Serialization of the fields of a JSON object. -/
def jsonDumpsObj : List (String × Json) → String
  | [] => ""
  | [(k, v)] => "\"" ++ escapeJsonString k ++ "\": " ++ jsonDumps v
  | (k, v) :: q :: rest =>
      "\"" ++ escapeJsonString k ++ "\": " ++ jsonDumps v ++ ", " ++ jsonDumpsObj (q :: rest)
end

/-- Whether pat occurs as a prefix of s, on character lists. -/
def isPrefixCharList : List Char → List Char → Bool
  | [], _ => true
  | _ :: _, [] => false
  | a :: as, b :: bs => a = b && isPrefixCharList as bs

/-- Whether pat occurs as a contiguous sublist of s. -/
def containsCharList (pat : List Char) : List Char → Bool
  | [] => isPrefixCharList pat []
  | c :: rest => isPrefixCharList pat (c :: rest) || containsCharList pat rest

/-- Substring test embedding the Python in operator on strings. -/
def strContains (s pat : String) : Bool :=
  containsCharList pat.toList s.toList

/-- Python truthiness of a parsed JSON value, as used by the check
if not token in request_token (src/proxy.py line 388). -/
def pyTruthy : Json → Bool
  | Json.null => false
  | Json.bool b => b
  | Json.num n => n != 0
  | Json.str s => s != ""
  | Json.arr xs => !xs.isEmpty
  | Json.obj fs => !fs.isEmpty

/-- Python str() of a parsed JSON scalar, as used by return str(token)
(src/proxy.py line 395); containers are serialized before reaching it. -/
def pyStr : Json → String
  | Json.null => "None"
  | Json.bool true => "True"
  | Json.bool false => "False"
  | Json.num n => toString n
  | Json.str s => s
  | v => jsonDumps v

/-- Python membership test field in value on a parsed JSON value: key test
on objects, element equality on lists, substring on strings, and a
TypeError (modelled as the error case) on the remaining scalars. -/
def pyContains (j : Json) (field : String) : Except Unit Bool :=
  match j with
  | Json.obj fs => Except.ok (fs.any (fun p => p.1 == field))
  | Json.arr xs =>
      Except.ok (xs.any (fun x => match x with
        | Json.str s => s == field
        | _ => false))
  | Json.str s => Except.ok (strContains s field)
  | _ => Except.error ()

/-- Python subscripting value[field] on a parsed JSON value: field access on
objects, a TypeError (error case) on every other shape. -/
def pyIndex (j : Json) (field : String) : Except Unit Json :=
  match j with
  | Json.obj fs =>
      match dictLookup fs field with
      | some v => Except.ok v
      | none => Except.error ()
  | _ => Except.error ()

/-- Observable outcome of the token-endpoint call: the HTTP status and the
body as parsed by the json library, none when the body is not valid JSON. -/
structure TokenResponse where
  status : Nat
  body : Option Json

/-- Result of request_token, one constructor per exit path of the source:
success, the bad-status failure, the not-JSON failure, the missing-field
failure, the empty-field failure, and the wrapped unexpected failure. -/
inductive TokenFetchResult where
  | ok (token : String)
  | badStatus (code : Nat)
  | notJson
  | missingField
  | emptyField
  | unexpected

/-- request_token (src/proxy.py lines 336 to 404), modelled over the
observable token-endpoint response: require status 200, require a JSON
body, require the configured token field present, require the value truthy,
serialize object or array tokens with json.dumps and stringify the rest.
Shapes on which the membership test, the subscripting, or the building of
the not-found message (which reads the dict keys) raises land in the
wrapped unexpected-error path. -/
def request_token (tokenField : String) (resp : TokenResponse) : TokenFetchResult :=
  if resp.status ≠ 200 then TokenFetchResult.badStatus resp.status
  else
    match resp.body with
    | none => TokenFetchResult.notJson
    | some data =>
      match pyContains data tokenField with
      | Except.error _ => TokenFetchResult.unexpected
      | Except.ok false =>
          match data with
          | Json.obj _ => TokenFetchResult.missingField
          | _ => TokenFetchResult.unexpected
      | Except.ok true =>
        match pyIndex data tokenField with
        | Except.error _ => TokenFetchResult.unexpected
        | Except.ok tok =>
          if pyTruthy tok = false then TokenFetchResult.emptyField
          else
            match tok with
            | Json.obj _ => TokenFetchResult.ok (jsonDumps tok)
            | Json.arr _ => TokenFetchResult.ok (jsonDumps tok)
            | _ => TokenFetchResult.ok (pyStr tok)

/-- A JSON error payload of the shape the handler returns and logs. -/
def errorJson (msg : String) : Json :=
  Json.obj [("error", Json.str msg)]

/-- Startup configuration read by the live handler: the target URL, the
three transform flags, the logging flag, the loaded merge headers (empty
when none were loaded), and whether a token request is configured. -/
structure ProxyConfig where
  targetUrl : String
  flattenContent : Bool
  noToolRoles : Bool
  removeNullToolCalls : Bool
  enableLogging : Bool
  mergeHeaders : Headers
  tokenConfigured : Bool

/-- Outcome of reading and json-parsing the inbound body, an external step:
empty body, a parsed JSON value, or a parse failure. -/
inductive BodyParse where
  | empty
  | valid (j : Json)
  | invalid

/-- The fields of a persisted request record that replay consumes
(src/proxy.py lines 531 to 538 for the write, 573 to 577 for the read). -/
structure RequestRecord where
  path : String
  method : String
  headers : Headers
  body : Option Json

/-- The upstream request the engine hands to the HTTP client: method,
target URL, final headers, and the JSON body, none when no body is sent. -/
structure SentRequest where
  method : String
  url : String
  headers : Headers
  body : Option Json

/-- Observable trace of the request-preparation prefix of the live handler:
an early JSON response when the handler returns before calling upstream, the
request record written when logging is enabled, and the prepared upstream
request when one is issued. -/
structure HandlerTrace where
  earlyResponse : Option (Nat × Json)
  requestLog : Option RequestRecord
  sent : Option SentRequest

/-- The body-reading step of the live handler (src/proxy.py lines 736 to
744): methods GET, HEAD and OPTIONS never read a body; other methods parse
it, and a parse failure aborts with the 400 response (modelled as none). -/
def readBody (method : String) (bp : BodyParse) : Option (Option Json) :=
  if method = "GET" ∨ method = "HEAD" ∨ method = "OPTIONS" then some none
  else
    match bp with
    | BodyParse.empty => some none
    | BodyParse.valid j => some (some j)
    | BodyParse.invalid => none

/-- The request-preparation prefix of the proxy handler (src/proxy.py lines
735 to 797): parse the body, merge startup headers when loaded, write the
request record when logging is on, apply the flagged body transforms,
filter headers down to the allowlist, and when a token request is
configured replace any authorization header with the fetched bearer token
or abort with a 500 response on a fetch failure.  The token fetch itself is
external; its outcome is the tokenOutcome argument. -/
def proxy (cfg : ProxyConfig) (tokenOutcome : Except String String)
    (method : String) (bp : BodyParse) (requestHeaders : Headers)
    (fullPath : String) : HandlerTrace :=
  match readBody method bp with
  | none =>
      { earlyResponse := some (400, errorJson "Invalid JSON body"),
        requestLog := none, sent := none }
  | some incomingBody =>
    let incomingHeaders :=
      if cfg.mergeHeaders.isEmpty then requestHeaders
      else merge_headers_with_request requestHeaders cfg.mergeHeaders
    let requestLog :=
      if cfg.enableLogging then
        some (RequestRecord.mk fullPath method incomingHeaders incomingBody)
      else none
    let bodyToSend :=
      Option.map
        (applyBodyTransforms cfg.flattenContent cfg.noToolRoles cfg.removeNullToolCalls)
        incomingBody
    let filtered := filterEssentialHeaders incomingHeaders
    if cfg.tokenConfigured then
      match tokenOutcome with
      | Except.ok token =>
          let withAuth :=
            dictSet (filtered.filter (fun p => decide (lowerStr p.1 ≠ "authorization")))
              "Authorization" ("Bearer " ++ token)
          { earlyResponse := none, requestLog := requestLog,
            sent := some (SentRequest.mk method cfg.targetUrl withAuth bodyToSend) }
      | Except.error e =>
          { earlyResponse := some (500, errorJson ("Token request failed: " ++ e)),
            requestLog := requestLog, sent := none }
    else
      { earlyResponse := none, requestLog := requestLog,
        sent := some (SentRequest.mk method cfg.targetUrl filtered bodyToSend) }

/-- The request-preparation prefix of replay_request_from_file (src/proxy.py
lines 573 to 644): take the persisted fields, pick the override target URL
when given and nonempty (the Python or-expression), apply the flagged body
transforms, merge override headers when given and nonempty, filter headers,
install the fetched bearer token when a token request is configured (none on
a fetch failure, matching the early failure return), and dispatch the body
by method exactly as the source does: POST sends the body, GET sends none,
every other method sends the body. -/
def replay_request_prepared (record : RequestRecord)
    (targetUrlOverride : Option String) (defaultTargetUrl : String)
    (flattenContent noToolRoles removeNullCalls : Bool)
    (overrideHeaders : Option Headers)
    (tokenConfigured : Bool) (tokenOutcome : Except String String) :
    Option SentRequest :=
  let urlToUse :=
    match targetUrlOverride with
    | some u => if u = "" then defaultTargetUrl else u
    | none => defaultTargetUrl
  let body :=
    Option.map (applyBodyTransforms flattenContent noToolRoles removeNullCalls)
      record.body
  let headers :=
    match overrideHeaders with
    | some mh =>
        if mh.isEmpty then record.headers
        else merge_headers_with_request record.headers mh
    | none => record.headers
  let filtered := filterEssentialHeaders headers
  let withToken :=
    if tokenConfigured then
      match tokenOutcome with
      | Except.ok token =>
          some (dictSet (filtered.filter (fun p => decide (lowerStr p.1 ≠ "authorization")))
            "Authorization" ("Bearer " ++ token))
      | Except.error _ => none
    else some filtered
  match withToken with
  | none => none
  | some finalHeaders =>
    let sentBody :=
      if upperStr record.method = "POST" then body
      else if upperStr record.method = "GET" then none
      else body
    some (SentRequest.mk record.method urlToUse finalHeaders sentBody)

/-- A transport failure raised while relaying a streaming response, one
constructor per except clause of stream_response_wrapper: httpx.ProxyError,
httpx.RequestError, and any other exception. -/
inductive StreamFailure where
  | proxyError (msg : String)
  | requestError (msg : String)
  | otherException (msg : String)

/-- How the upstream chunk stream ends: normally, or by raising a failure
after the listed chunks were received. -/
inductive StreamTail where
  | done
  | failed (f : StreamFailure)

/-- Observable behaviour of the upstream streaming response handed to
stream_response_wrapper: the status, the chunks received before the tail
event, how the stream ends, and for the non-200 path the fully read error
body together with the json-parse verdict on it. -/
structure StreamScript where
  status : Nat
  chunks : List String
  tail : StreamTail
  errorBody : String
  errorBodyJson : Option Json

/-- What the wrapper emits: the chunks yielded to the caller in order, and
the response records written, as status and body pairs. -/
structure StreamOutcome where
  yielded : List String
  savedResponses : List (Nat × Json)

/-- The proxy-auth test of the except clauses (src/proxy.py line 854):
the message contains 407 or Authentication Required. -/
def isProxyAuthFailure (msg : String) : Bool :=
  strContains msg "407" || strContains msg "Authentication Required"

/-- The JSON error payload built by the except clauses of
stream_response_wrapper (src/proxy.py lines 853 to 878). -/
def streamFailureContent (proxyDebug : Bool) (proxyUrl : Option String) :
    StreamFailure → Json
  | StreamFailure.proxyError msg =>
      if isProxyAuthFailure msg then
        errorJson ("Proxy authentication failed (407). Please check your proxy credentials."
          ++ (if proxyDebug then " Details: " ++ msg else ""))
      else errorJson ("Proxy error: " ++ msg)
  | StreamFailure.requestError msg =>
      errorJson ("Request error: " ++ msg
        ++ (if proxyDebug then
              " (Proxy URL: " ++ (match proxyUrl with | some u => u | none => "None") ++ ")"
            else ""))
  | StreamFailure.otherException msg =>
      errorJson ("Streaming error: " ++ msg)

/-- stream_response_wrapper (src/proxy.py lines 825 to 881).  A non-200
status reads the whole error body, logs it (parsed when possible) and
yields it as one chunk.  A 200 status yields each nonempty chunk in arrival
order; a normal end logs the joined chunks with status 200 when logging is
on and chunks arrived; a proxy or request error mid-stream logs the error
payload with status 502 when logging is on and yields the payload as a
single terminal chunk; any other exception yields the payload as a single
terminal chunk without writing any record. -/
def stream_response_wrapper (enableLogging proxyDebug : Bool)
    (proxyUrl : Option String) (s : StreamScript) : StreamOutcome :=
  if s.status ≠ 200 then
    { yielded := [s.errorBody],
      savedResponses :=
        if enableLogging then
          [(s.status,
            match s.errorBodyJson with
            | some j => j
            | none => Json.str s.errorBody)]
        else [] }
  else
    let collected := s.chunks.filter (fun c => decide (c ≠ ""))
    match s.tail with
    | StreamTail.done =>
        { yielded := collected,
          savedResponses :=
            if enableLogging ∧ ¬ collected.isEmpty then
              [(200, Json.str (String.join collected))]
            else [] }
    | StreamTail.failed f =>
        let content := streamFailureContent proxyDebug proxyUrl f
        { yielded := collected ++ [jsonDumps content],
          savedResponses :=
            if enableLogging then
              match f with
              | StreamFailure.otherException _ => []
              | _ => [(502, content)]
            else [] }

/-- Looking up the key just set returns the value set. -/
theorem dictLookup_dictSet_self {α : Type} (l : List (String × α)) (k : String) (v : α) :
    dictLookup (dictSet l k v) k = some v := by
  induction l with
  | nil => simp [dictSet, dictLookup]
  | cons p rest ih =>
    by_cases h : p.1 = k
    · simp [dictSet, dictLookup, h]
    · simp [dictSet, dictLookup, h, ih]

/-- Setting the same key twice keeps only the second value. -/
theorem dictSet_dictSet {α : Type} (l : List (String × α)) (k : String) (v w : α) :
    dictSet (dictSet l k v) k w = dictSet l k w := by
  induction l with
  | nil => simp [dictSet]
  | cons p rest ih =>
    by_cases h : p.1 = k
    · simp [dictSet, h]
    · simp [dictSet, h, ih]

/-- Case analysis of flattenMessage: either the message passes through
unchanged, or it is an object whose content field matches the flatten test
and exactly that field is replaced. -/
theorem flattenMessage_cases (m : Json) :
    flattenMessage m = m ∨
      ∃ g c t, m = Json.obj g ∧ dictLookup g "content" = some c ∧
        contentFlatten c = some t ∧
        flattenMessage m = Json.obj (dictSet g "content" t) := by
  cases m with
  | obj g =>
    cases hc : dictLookup g "content" with
    | none => exact Or.inl (by simp [flattenMessage, hc])
    | some c =>
      cases ht : contentFlatten c with
      | none => exact Or.inl (by simp [flattenMessage, hc, ht])
      | some t =>
        exact Or.inr ⟨g, c, t, rfl, hc, ht, by simp [flattenMessage, hc, ht]⟩
  | null => exact Or.inl rfl
  | bool b => exact Or.inl rfl
  | num n => exact Or.inl rfl
  | str s => exact Or.inl rfl
  | arr xs => exact Or.inl rfl

/-- Case analysis of replaceToolRolesMessage: either the message passes
through unchanged, or it is an object whose role is the string tool-call or
tool-response and exactly that field becomes user. -/
theorem replaceToolRolesMessage_cases (m : Json) :
    replaceToolRolesMessage m = m ∨
      ∃ g r, m = Json.obj g ∧ dictLookup g "role" = some (Json.str r) ∧
        (r = "tool-call" ∨ r = "tool-response") ∧
        replaceToolRolesMessage m = Json.obj (dictSet g "role" (Json.str "user")) := by
  cases m with
  | obj g =>
    cases hr : dictLookup g "role" with
    | none => exact Or.inl (by simp [replaceToolRolesMessage, hr])
    | some v =>
      cases v with
      | str r =>
        by_cases hrole : r = "tool-call" ∨ r = "tool-response"
        · exact Or.inr ⟨g, r, rfl, hr, hrole, by simp [replaceToolRolesMessage, hr, hrole]⟩
        · exact Or.inl (by simp [replaceToolRolesMessage, hr, hrole])
      | null => exact Or.inl (by simp [replaceToolRolesMessage, hr])
      | bool b => exact Or.inl (by simp [replaceToolRolesMessage, hr])
      | num n => exact Or.inl (by simp [replaceToolRolesMessage, hr])
      | arr xs => exact Or.inl (by simp [replaceToolRolesMessage, hr])
      | obj h => exact Or.inl (by simp [replaceToolRolesMessage, hr])
  | null => exact Or.inl rfl
  | bool b => exact Or.inl rfl
  | num n => exact Or.inl rfl
  | str s => exact Or.inl rfl
  | arr xs => exact Or.inl rfl

/-- Case analysis of removeNullToolCallsMessage: either the message passes
through unchanged, or it is an object whose tool_calls field is null and
exactly that key is removed. -/
theorem removeNullToolCallsMessage_cases (m : Json) :
    removeNullToolCallsMessage m = m ∨
      ∃ g, m = Json.obj g ∧ dictLookup g "tool_calls" = some Json.null ∧
        removeNullToolCallsMessage m = Json.obj (delFirstKey g "tool_calls") := by
  cases m with
  | obj g =>
    cases hv : dictLookup g "tool_calls" with
    | none => exact Or.inl (by simp [removeNullToolCallsMessage, hv])
    | some v =>
      cases v with
      | null => exact Or.inr ⟨g, rfl, hv, by simp [removeNullToolCallsMessage, hv]⟩
      | bool b => exact Or.inl (by simp [removeNullToolCallsMessage, hv])
      | num n => exact Or.inl (by simp [removeNullToolCallsMessage, hv])
      | str s => exact Or.inl (by simp [removeNullToolCallsMessage, hv])
      | arr xs => exact Or.inl (by simp [removeNullToolCallsMessage, hv])
      | obj h => exact Or.inl (by simp [removeNullToolCallsMessage, hv])
  | null => exact Or.inl rfl
  | bool b => exact Or.inl rfl
  | num n => exact Or.inl rfl
  | str s => exact Or.inl rfl
  | arr xs => exact Or.inl rfl

/-- Case analysis of flatten_content_in_body at the top level. -/
theorem flatten_body_cases (b : Json) :
    flatten_content_in_body b = b ∨
      ∃ fs ms, b = Json.obj fs ∧ dictLookup fs "messages" = some (Json.arr ms) ∧
        flatten_content_in_body b =
          Json.obj (dictSet fs "messages" (Json.arr (ms.map flattenMessage))) := by
  cases b with
  | obj fs =>
    cases hm : dictLookup fs "messages" with
    | none => exact Or.inl (by simp [flatten_content_in_body, hm])
    | some v =>
      cases v with
      | arr ms => exact Or.inr ⟨fs, ms, rfl, hm, by simp [flatten_content_in_body, hm]⟩
      | null => exact Or.inl (by simp [flatten_content_in_body, hm])
      | bool b => exact Or.inl (by simp [flatten_content_in_body, hm])
      | num n => exact Or.inl (by simp [flatten_content_in_body, hm])
      | str s => exact Or.inl (by simp [flatten_content_in_body, hm])
      | obj h => exact Or.inl (by simp [flatten_content_in_body, hm])
  | null => exact Or.inl rfl
  | bool b => exact Or.inl rfl
  | num n => exact Or.inl rfl
  | str s => exact Or.inl rfl
  | arr xs => exact Or.inl rfl

/-- Case analysis of replace_tool_roles_in_body at the top level. -/
theorem roles_body_cases (b : Json) :
    replace_tool_roles_in_body b = b ∨
      ∃ fs ms, b = Json.obj fs ∧ dictLookup fs "messages" = some (Json.arr ms) ∧
        replace_tool_roles_in_body b =
          Json.obj (dictSet fs "messages" (Json.arr (ms.map replaceToolRolesMessage))) := by
  cases b with
  | obj fs =>
    cases hm : dictLookup fs "messages" with
    | none => exact Or.inl (by simp [replace_tool_roles_in_body, hm])
    | some v =>
      cases v with
      | arr ms => exact Or.inr ⟨fs, ms, rfl, hm, by simp [replace_tool_roles_in_body, hm]⟩
      | null => exact Or.inl (by simp [replace_tool_roles_in_body, hm])
      | bool b => exact Or.inl (by simp [replace_tool_roles_in_body, hm])
      | num n => exact Or.inl (by simp [replace_tool_roles_in_body, hm])
      | str s => exact Or.inl (by simp [replace_tool_roles_in_body, hm])
      | obj h => exact Or.inl (by simp [replace_tool_roles_in_body, hm])
  | null => exact Or.inl rfl
  | bool b => exact Or.inl rfl
  | num n => exact Or.inl rfl
  | str s => exact Or.inl rfl
  | arr xs => exact Or.inl rfl

/-- Case analysis of remove_null_tool_calls_in_body at the top level. -/
theorem nulls_body_cases (b : Json) :
    remove_null_tool_calls_in_body b = b ∨
      ∃ fs ms, b = Json.obj fs ∧ dictLookup fs "messages" = some (Json.arr ms) ∧
        remove_null_tool_calls_in_body b =
          Json.obj (dictSet fs "messages" (Json.arr (ms.map removeNullToolCallsMessage))) := by
  cases b with
  | obj fs =>
    cases hm : dictLookup fs "messages" with
    | none => exact Or.inl (by simp [remove_null_tool_calls_in_body, hm])
    | some v =>
      cases v with
      | arr ms => exact Or.inr ⟨fs, ms, rfl, hm, by simp [remove_null_tool_calls_in_body, hm]⟩
      | null => exact Or.inl (by simp [remove_null_tool_calls_in_body, hm])
      | bool b => exact Or.inl (by simp [remove_null_tool_calls_in_body, hm])
      | num n => exact Or.inl (by simp [remove_null_tool_calls_in_body, hm])
      | str s => exact Or.inl (by simp [remove_null_tool_calls_in_body, hm])
      | obj h => exact Or.inl (by simp [remove_null_tool_calls_in_body, hm])
  | null => exact Or.inl rfl
  | bool b => exact Or.inl rfl
  | num n => exact Or.inl rfl
  | str s => exact Or.inl rfl
  | arr xs => exact Or.inl rfl

/-- Claim C8: on the body with one tool-call message whose content is the
single text element hi, the pipeline with flatten and remap enabled (and
null tool_calls removal off), in the fixed order flatten then remap,
produces one user message whose content is the plain string hi. -/
theorem flatten_remap_scenario :
    applyBodyTransforms true true false
      (Json.obj [("messages", Json.arr [Json.obj
        [("role", Json.str "tool-call"),
         ("content", Json.arr [Json.obj
           [("type", Json.str "text"), ("text", Json.str "hi")]])]])])
    = Json.obj [("messages", Json.arr [Json.obj
        [("role", Json.str "user"), ("content", Json.str "hi")]])] := rfl

/-- Claim C10: the three body transforms are total over arbitrary JSON
input and leave every non-matching element unchanged: each top-level
application either returns the body unchanged or rewrites exactly the
messages list element-wise, and each per-message step either returns the
message unchanged or performs exactly its matched-field rewrite (content
flatten, role remap, null tool_calls removal).  Totality is witnessed by
the transforms being functions defined on every constructor of Json. -/
theorem transforms_nonmatching_identity (b m : Json) :
    (flatten_content_in_body b = b ∨
      ∃ fs ms, b = Json.obj fs ∧ dictLookup fs "messages" = some (Json.arr ms) ∧
        flatten_content_in_body b =
          Json.obj (dictSet fs "messages" (Json.arr (ms.map flattenMessage)))) ∧
    (replace_tool_roles_in_body b = b ∨
      ∃ fs ms, b = Json.obj fs ∧ dictLookup fs "messages" = some (Json.arr ms) ∧
        replace_tool_roles_in_body b =
          Json.obj (dictSet fs "messages" (Json.arr (ms.map replaceToolRolesMessage)))) ∧
    (remove_null_tool_calls_in_body b = b ∨
      ∃ fs ms, b = Json.obj fs ∧ dictLookup fs "messages" = some (Json.arr ms) ∧
        remove_null_tool_calls_in_body b =
          Json.obj (dictSet fs "messages" (Json.arr (ms.map removeNullToolCallsMessage)))) ∧
    (flattenMessage m = m ∨
      ∃ g c t, m = Json.obj g ∧ dictLookup g "content" = some c ∧
        contentFlatten c = some t ∧
        flattenMessage m = Json.obj (dictSet g "content" t)) ∧
    (replaceToolRolesMessage m = m ∨
      ∃ g r, m = Json.obj g ∧ dictLookup g "role" = some (Json.str r) ∧
        (r = "tool-call" ∨ r = "tool-response") ∧
        replaceToolRolesMessage m = Json.obj (dictSet g "role" (Json.str "user"))) ∧
    (removeNullToolCallsMessage m = m ∨
      ∃ g, m = Json.obj g ∧ dictLookup g "tool_calls" = some Json.null ∧
        removeNullToolCallsMessage m = Json.obj (delFirstKey g "tool_calls")) :=
  ⟨flatten_body_cases b, roles_body_cases b, nulls_body_cases b,
   flattenMessage_cases m, replaceToolRolesMessage_cases m,
   removeNullToolCallsMessage_cases m⟩

/-- A body on which flatten_content_in_body is not idempotent: the single
message content is a one-element text list whose text field is itself a
one-element text list, so a first flatten exposes a second flattenable
shape. -/
def nestedFlattenInput : Json :=
  Json.obj [("messages", Json.arr [Json.obj
    [("content", Json.arr [Json.obj
      [("type", Json.str "text"),
       ("text", Json.arr [Json.obj
         [("type", Json.str "text"), ("text", Json.str "hi")]])]])]])]

/-- Claim C9, counterexample: applying flatten_content_in_body twice to
nestedFlattenInput differs from applying it once, so the transform is not
idempotent on every JSON body. -/
theorem flatten_not_idempotent_counterexample :
    ¬ (flatten_content_in_body (flatten_content_in_body nestedFlattenInput)
        = flatten_content_in_body nestedFlattenInput) := by
  intro h
  have h1 : flatten_content_in_body (flatten_content_in_body nestedFlattenInput)
      = Json.obj [("messages", Json.arr [Json.obj [("content", Json.str "hi")]])] := rfl
  have h2 : flatten_content_in_body nestedFlattenInput
      = Json.obj [("messages", Json.arr [Json.obj
          [("content", Json.arr [Json.obj
            [("type", Json.str "text"), ("text", Json.str "hi")]])]])] := rfl
  rw [h1, h2] at h
  simp at h

/-- Claim C9, amended: flatten_content_in_body is idempotent on every body
in which no message content both matches the flatten test and carries a
text value that itself matches the flatten test; in particular on every
body whose text values are strings.  On the excluded nested shapes a second
application flattens one level further. -/
theorem flatten_idempotent_of_no_nested (b : Json)
    (h : ∀ fs ms m g c t, b = Json.obj fs →
      dictLookup fs "messages" = some (Json.arr ms) → m ∈ ms →
      m = Json.obj g → dictLookup g "content" = some c →
      contentFlatten c = some t → contentFlatten t = none) :
    flatten_content_in_body (flatten_content_in_body b)
      = flatten_content_in_body b := by
  cases b with
  | obj fs =>
    cases hm : dictLookup fs "messages" with
    | none => simp [flatten_content_in_body, hm]
    | some v =>
      cases v with
      | arr ms =>
        have hmf : ∀ m ∈ ms, flattenMessage (flattenMessage m) = flattenMessage m := by
          intro m hmem
          cases m with
          | obj g =>
            cases hc : dictLookup g "content" with
            | none => simp [flattenMessage, hc]
            | some c =>
              cases ht : contentFlatten c with
              | none => simp [flattenMessage, hc, ht]
              | some t =>
                have hnone : contentFlatten t = none :=
                  h fs ms (Json.obj g) g c t rfl hm hmem rfl hc ht
                simp [flattenMessage, hc, ht, dictLookup_dictSet_self, hnone]
          | null => rfl
          | bool bb => rfl
          | num n => rfl
          | str s => rfl
          | arr xs => rfl
        have hmap : (ms.map flattenMessage).map flattenMessage = ms.map flattenMessage := by
          rw [List.map_map]
          exact List.map_congr_left (fun m hmem => hmf m hmem)
        simp [flatten_content_in_body, hm, dictLookup_dictSet_self, hmap, dictSet_dictSet]
      | null => simp [flatten_content_in_body, hm]
      | bool bb => simp [flatten_content_in_body, hm]
      | num n => simp [flatten_content_in_body, hm]
      | str s => simp [flatten_content_in_body, hm]
      | obj h2 => simp [flatten_content_in_body, hm]
  | null => rfl
  | bool bb => rfl
  | num n => rfl
  | str s => rfl
  | arr xs => rfl

/-- Concrete witness for the amended claim C9: on a body whose single
message content is a one-element text list with a string text value, the
hypothesis holds and flatten_content_in_body is idempotent. -/
theorem flatten_idempotent_witness :
    flatten_content_in_body (flatten_content_in_body
      (Json.obj [("messages", Json.arr [Json.obj
        [("content", Json.arr [Json.obj
          [("type", Json.str "text"), ("text", Json.str "hi")]])]])]))
    = flatten_content_in_body
      (Json.obj [("messages", Json.arr [Json.obj
        [("content", Json.arr [Json.obj
          [("type", Json.str "text"), ("text", Json.str "hi")]])]])]) := by
  apply flatten_idempotent_of_no_nested
  intro fs ms m g c t hb hm hmem hg hc ht
  cases hb
  have hms := Json.arr.inj (Option.some.inj hm)
  subst hms
  rw [List.mem_singleton] at hmem
  subst hmem
  cases hg
  have hc2 := Option.some.inj hc
  subst hc2
  have ht2 := Option.some.inj ht
  subst ht2
  rfl

/-- A header mapping with no two names differing only by case. -/
abbrev CaseDistinct (hs : Headers) : Prop :=
  List.Pairwise (fun p q => lowerStr p.1 ≠ lowerStr q.1) hs

/-- Under case-distinct keys, deleting the one entry whose name matches the
override name case-insensitively equals filtering out all case matches. -/
theorem delFirstKey_eq_filter (kv : String × String) :
    ∀ hs : Headers, CaseDistinct hs → ∀ p ∈ hs, lowerStr p.1 = lowerStr kv.1 →
      delFirstKey hs p.1 = hs.filter (fun q => decide (lowerStr q.1 ≠ lowerStr kv.1)) := by
  intro hs
  induction hs with
  | nil => intro _ p hp; exact absurd hp (List.not_mem_nil p)
  | cons a rest ih =>
    intro hd p hp hlow
    obtain ⟨ha, hrest⟩ := List.pairwise_cons.mp hd
    by_cases hak : a.1 = p.1
    · have halow : lowerStr a.1 = lowerStr kv.1 := by rw [hak]; exact hlow
      have hkeep : rest.filter (fun q => decide (lowerStr q.1 ≠ lowerStr kv.1)) = rest := by
        apply List.filter_eq_self.mpr
        intro q hq
        apply decide_eq_true
        intro hcontra
        exact ha q hq (by rw [halow, hcontra])
      rw [show delFirstKey (a :: rest) p.1 = rest by simp [delFirstKey, hak]]
      rw [List.filter_cons_of_neg (by simp [halow]), hkeep]
    · have hpmem : p ∈ rest := by
        rcases List.mem_cons.mp hp with h | h
        · exact absurd (by rw [h] : a.1 = p.1) hak
        · exact h
      have halow : ¬ lowerStr a.1 = lowerStr kv.1 := by
        intro hcontra
        exact ha p hpmem (by rw [hcontra, hlow])
      rw [show delFirstKey (a :: rest) p.1 = a :: delFirstKey rest p.1 by
        simp [delFirstKey, hak]]
      rw [List.filter_cons_of_pos (by simp [halow]), ih hrest p hpmem hlow]

/-- Assignment of a key absent from the list appends the entry. -/
theorem dictSet_of_not_mem {α : Type} (l : List (String × α)) (k : String) (v : α)
    (h : ∀ p ∈ l, p.1 ≠ k) : dictSet l k v = l ++ [(k, v)] := by
  induction l with
  | nil => simp [dictSet]
  | cons a rest ih =>
    have hak : a.1 ≠ k := h a (List.mem_cons_self a rest)
    simp only [dictSet, hak, if_false, List.cons_append, ite_false]
    exact congrArg (a :: ·) (ih (fun p hp => h p (List.mem_cons_of_mem a hp)))

/-- Lowercasing yields the empty string exactly on the empty string. -/
theorem lowerStr_eq_empty_iff (s : String) : lowerStr s = "" ↔ s = "" := by
  constructor
  · intro h
    have hdata : s.data.map Char.toLower = [] := by
      have := congrArg String.data h
      simpa [lowerStr] using this
    have hnil : s.data = [] := List.map_eq_nil_iff.mp hdata
    cases s
    simp_all
  · intro h
    subst h
    rfl

/-- Under case-distinct keys and a nonempty override name, one merge-loop
iteration removes every case match of the override name and appends the
override entry. -/
theorem mergeHeaderStep_eq (hs : Headers) (kv : String × String) (h : CaseDistinct hs)
    (hk : kv.1 ≠ "") :
    mergeHeaderStep hs kv =
      hs.filter (fun q => decide (lowerStr q.1 ≠ lowerStr kv.1)) ++ [kv] := by
  cases hf : hs.find? (fun p => lowerStr p.1 == lowerStr kv.1) with
  | none =>
    have hnone := List.find?_eq_none.mp hf
    have hfilter : hs.filter (fun q => decide (lowerStr q.1 ≠ lowerStr kv.1)) = hs := by
      apply List.filter_eq_self.mpr
      intro q hq
      apply decide_eq_true
      intro hcontra
      exact hnone q hq (by simp [hcontra])
    have hne : ∀ p ∈ hs, p.1 ≠ kv.1 := by
      intro p hp hcontra
      exact hnone p hp (by simp [hcontra])
    simp only [mergeHeaderStep, hf]
    rw [dictSet_of_not_mem hs kv.1 kv.2 hne, hfilter]
  | some p =>
    have hpmem := List.mem_of_find?_eq_some hf
    have hplow : lowerStr p.1 = lowerStr kv.1 := by
      have := List.find?_some hf
      simpa using this
    have hdel := delFirstKey_eq_filter kv hs h p hpmem hplow
    have hpne : ¬ p.1 = "" := by
      intro hpe
      apply hk
      apply (lowerStr_eq_empty_iff kv.1).mp
      rw [← hplow, hpe]
      rfl
    have hne : ∀ q ∈ hs.filter (fun q => decide (lowerStr q.1 ≠ lowerStr kv.1)), q.1 ≠ kv.1 := by
      intro q hq hcontra
      have hq2 := (List.mem_filter.mp hq).2
      rw [decide_eq_true_iff] at hq2
      exact hq2 (by rw [hcontra])
    simp only [mergeHeaderStep, hf]
    rw [if_neg hpne, hdel, dictSet_of_not_mem _ kv.1 kv.2 hne]

/-- One merge-loop iteration with a nonempty override name preserves
case-distinctness. -/
theorem caseDistinct_mergeHeaderStep (hs : Headers) (kv : String × String)
    (h : CaseDistinct hs) (hk : kv.1 ≠ "") : CaseDistinct (mergeHeaderStep hs kv) := by
  rw [mergeHeaderStep_eq hs kv h hk]
  apply List.pairwise_append.mpr
  refine ⟨h.sublist (List.filter_sublist hs), by simp, ?_⟩
  intro a ha b hb
  rw [List.mem_singleton] at hb
  subst hb
  have := (List.mem_filter.mp ha).2
  rw [decide_eq_true_iff] at this
  exact this


/-- Claim C4, amended: provided neither the inbound mapping nor the
override set contains two names differing only by case, and no override
name is the empty string (on an empty matched name the source skips the
delete under its truthiness guard and updates in place), the merge keeps
exactly the inbound entries matching no override name case-insensitively,
followed by every override entry verbatim with its original casing, and the
result again has no two names differing only by case. -/
theorem merge_headers_characterization :
    ∀ (overrides requestHeaders : Headers),
      CaseDistinct requestHeaders → CaseDistinct overrides →
      (∀ q ∈ overrides, q.1 ≠ "") →
      merge_headers_with_request requestHeaders overrides =
        requestHeaders.filter
          (fun p => overrides.all (fun q => decide (lowerStr q.1 ≠ lowerStr p.1)))
          ++ overrides
      ∧ CaseDistinct (merge_headers_with_request requestHeaders overrides) := by
  intro mh
  induction mh with
  | nil =>
    intro req h1 _ _
    refine ⟨?_, by simpa [merge_headers_with_request] using h1⟩
    simp [merge_headers_with_request]
  | cons kv rest ih =>
    intro req h1 h2 h3
    obtain ⟨hhead, htail⟩ := List.pairwise_cons.mp h2
    have hkne : kv.1 ≠ "" := h3 kv (List.mem_cons_self kv rest)
    have hstep := mergeHeaderStep_eq req kv h1 hkne
    have hcd := caseDistinct_mergeHeaderStep req kv h1 hkne
    have hfold : merge_headers_with_request req (kv :: rest) =
        merge_headers_with_request (mergeHeaderStep req kv) rest := rfl
    obtain ⟨ihi, ihcd⟩ := ih (mergeHeaderStep req kv) hcd htail
      (fun q hq => h3 q (List.mem_cons_of_mem kv hq))
    refine ⟨?_, by rw [hfold]; exact ihcd⟩
    rw [hfold, ihi, hstep, List.filter_append]
    have hkv : rest.all (fun q => decide (lowerStr q.1 ≠ lowerStr kv.1)) = true := by
      apply List.all_eq_true.mpr
      intro q hq
      exact decide_eq_true (Ne.symm (hhead q hq))
    have hsingle : List.filter
        (fun p => rest.all fun q => decide (lowerStr q.1 ≠ lowerStr p.1)) [kv] = [kv] := by
      apply List.filter_eq_self.mpr
      intro a ha
      rw [List.mem_singleton] at ha
      subst ha
      exact hkv
    rw [hsingle, List.filter_filter]
    have hpred : ∀ a ∈ req,
        (rest.all (fun q => decide (lowerStr q.1 ≠ lowerStr a.1))
          && decide (lowerStr a.1 ≠ lowerStr kv.1))
        = ((kv :: rest).all (fun q => decide (lowerStr q.1 ≠ lowerStr a.1))) := by
      intro a _
      rw [List.all_cons, Bool.and_comm]
      have : decide (lowerStr a.1 ≠ lowerStr kv.1) = decide (lowerStr kv.1 ≠ lowerStr a.1) :=
        decide_eq_decide.mpr ne_comm
      rw [this]
    rw [List.filter_congr hpred]
    simp

/-- Claim C4, counterexample: when the inbound mapping itself carries two
names differing only by case, the merge loop deletes only the first
case-insensitive match, so the inbound entry X-FOO matching the override
X-Foo case-insensitively survives and the result holds the two names X-FOO
and X-Foo differing only by case. -/
theorem merge_headers_case_duplicate_counterexample :
    ("X-FOO", "c") ∈
        merge_headers_with_request [("x-foo", "b"), ("X-FOO", "c")] [("X-Foo", "a")]
    ∧ ("X-Foo", "a") ∈
        merge_headers_with_request [("x-foo", "b"), ("X-FOO", "c")] [("X-Foo", "a")]
    ∧ "X-FOO" ≠ "X-Foo" ∧ lowerStr "X-FOO" = lowerStr "X-Foo" := by
  decide

/-- Concrete witness for the amended claim C4, on the example named by the
claim: merging the override X-Foo valued a into the inbound mapping holding
x-foo valued b. -/
theorem merge_headers_characterization_witness :
    merge_headers_with_request [("x-foo", "b")] [("X-Foo", "a")] =
      List.filter
        (fun p => [("X-Foo", "a")].all fun q => decide (lowerStr q.1 ≠ lowerStr p.1))
        [("x-foo", "b")] ++ [("X-Foo", "a")]
    ∧ CaseDistinct (merge_headers_with_request [("x-foo", "b")] [("X-Foo", "a")]) :=
  merge_headers_characterization [("X-Foo", "a")] [("x-foo", "b")]
    (by decide) (by decide) (by decide)

/-- Claim C5: the shared header filter emits only entries whose lowercased
name is in the fixed allowlist, and keeps every input entry whose
lowercased name is in the allowlist. -/
theorem filter_headers_allowlist (hs : Headers) :
    (∀ p ∈ filterEssentialHeaders hs, lowerStr p.1 ∈ essential_headers)
    ∧ (∀ p ∈ hs, lowerStr p.1 ∈ essential_headers → p ∈ filterEssentialHeaders hs) := by
  constructor
  · intro p hp
    have := (List.mem_filter.mp hp).2
    rwa [decide_eq_true_iff] at this
  · intro p hp hmem
    exact List.mem_filter.mpr ⟨hp, decide_eq_true hmem⟩

/-- Concrete witness for claim C5: on a mapping holding one allowlisted
header Accept and one non-allowlisted header X-Internal, the filter keeps
the former and everything it emits is allowlisted. -/
theorem filter_headers_allowlist_witness :
    ("Accept", "application/json") ∈
        filterEssentialHeaders [("Accept", "application/json"), ("X-Internal", "v")]
    ∧ ∀ p ∈ filterEssentialHeaders [("Accept", "application/json"), ("X-Internal", "v")],
        lowerStr p.1 ∈ essential_headers :=
  ⟨(filter_headers_allowlist
      [("Accept", "application/json"), ("X-Internal", "v")]).2
      ("Accept", "application/json") (by decide) (by decide),
   (filter_headers_allowlist
      [("Accept", "application/json"), ("X-Internal", "v")]).1⟩

/-- The key-membership test of an object equals definedness of the lookup. -/
theorem any_key_eq_isSome {α : Type} (fs : List (String × α)) (k : String) :
    fs.any (fun p => p.1 == k) = (dictLookup fs k).isSome := by
  induction fs with
  | nil => rfl
  | cons p rest ih =>
    by_cases h : p.1 = k
    · simp [dictLookup, h, List.any_cons]
    · simp [dictLookup, h, List.any_cons, ih]

/-- A non-200 token-endpoint status yields the bad-status failure. -/
theorem request_token_badStatus (tokenField : String) (resp : TokenResponse)
    (h : resp.status ≠ 200) :
    request_token tokenField resp = TokenFetchResult.badStatus resp.status := by
  simp [request_token, h]

/-- A 200 response whose body is not valid JSON yields the not-JSON failure. -/
theorem request_token_notJson (tokenField : String) (resp : TokenResponse)
    (h200 : resp.status = 200) (hb : resp.body = none) :
    request_token tokenField resp = TokenFetchResult.notJson := by
  simp [request_token, h200, hb]

/-- A 200 JSON-object response lacking the token field yields the
missing-field failure. -/
theorem request_token_missingField (tokenField : String) (resp : TokenResponse)
    (fs : List (String × Json)) (h200 : resp.status = 200)
    (hb : resp.body = some (Json.obj fs)) (hl : dictLookup fs tokenField = none) :
    request_token tokenField resp = TokenFetchResult.missingField := by
  simp [request_token, h200, hb, pyContains, any_key_eq_isSome, hl]

/-- A 200 JSON-object response whose token field holds a falsy value yields
the empty-field failure. -/
theorem request_token_emptyField (tokenField : String) (resp : TokenResponse)
    (fs : List (String × Json)) (v : Json) (h200 : resp.status = 200)
    (hb : resp.body = some (Json.obj fs)) (hl : dictLookup fs tokenField = some v)
    (ht : pyTruthy v = false) :
    request_token tokenField resp = TokenFetchResult.emptyField := by
  simp [request_token, h200, hb, pyContains, any_key_eq_isSome, hl, pyIndex, ht]

/-- A truthy object or array token value is serialized back to a JSON
string with json.dumps. -/
theorem request_token_serializes (tokenField : String) (resp : TokenResponse)
    (fs : List (String × Json)) (v : Json) (h200 : resp.status = 200)
    (hb : resp.body = some (Json.obj fs)) (hl : dictLookup fs tokenField = some v)
    (ht : pyTruthy v = true)
    (hc : (∃ g, v = Json.obj g) ∨ (∃ xs, v = Json.arr xs)) :
    request_token tokenField resp = TokenFetchResult.ok (jsonDumps v) := by
  rcases hc with ⟨g, rfl⟩ | ⟨xs, rfl⟩ <;>
    simp [request_token, h200, hb, pyContains, any_key_eq_isSome, hl, pyIndex, ht]

/-- The token fetch succeeds exactly when the status is 200, the body
parses to a JSON object, and the configured field is present with a truthy
value. -/
theorem request_token_ok_iff (tokenField : String) (resp : TokenResponse) :
    (∃ t, request_token tokenField resp = TokenFetchResult.ok t) ↔
      (resp.status = 200 ∧ ∃ fs v, resp.body = some (Json.obj fs) ∧
        dictLookup fs tokenField = some v ∧ pyTruthy v = true) := by
  obtain ⟨st, body⟩ := resp
  constructor
  · rintro ⟨t, hres⟩
    by_cases h200 : st = 200
    · subst h200
      cases body with
      | none => simp [request_token] at hres
      | some data =>
        cases data with
        | null => simp [request_token, pyContains] at hres
        | bool b => simp [request_token, pyContains] at hres
        | num n => simp [request_token, pyContains] at hres
        | str s =>
          cases hc : strContains s tokenField <;>
            simp [request_token, pyContains, hc, pyIndex] at hres
        | arr xs =>
          cases hc : xs.any (fun x => match x with
              | Json.str s => s == tokenField
              | _ => false) <;>
            simp [request_token, pyContains, hc, pyIndex] at hres
        | obj fs =>
          cases hany : fs.any (fun p => p.1 == tokenField) with
          | false => simp [request_token, pyContains, hany] at hres
          | true =>
            have hsome : (dictLookup fs tokenField).isSome := by
              rw [← any_key_eq_isSome]; exact hany
            obtain ⟨v, hl⟩ := Option.isSome_iff_exists.mp hsome
            cases ht : pyTruthy v with
            | false =>
              simp [request_token, pyContains, hany, pyIndex, hl, ht] at hres
            | true =>
              exact ⟨rfl, fs, v, rfl, hl, ht⟩
    · simp [request_token, h200] at hres
  · rintro ⟨h200, fs, v, hb, hl, ht⟩
    subst h200
    cases hb
    have hany : fs.any (fun p => p.1 == tokenField) = true := by
      rw [any_key_eq_isSome, hl]; rfl
    cases v with
    | null => simp [pyTruthy] at ht
    | bool b =>
      exact ⟨pyStr (Json.bool b),
        by simp [request_token, pyContains, hany, pyIndex, hl, ht]⟩
    | num n =>
      exact ⟨pyStr (Json.num n),
        by simp [request_token, pyContains, hany, pyIndex, hl, ht]⟩
    | str s =>
      exact ⟨pyStr (Json.str s),
        by simp [request_token, pyContains, hany, pyIndex, hl, ht]⟩
    | arr xs =>
      exact ⟨jsonDumps (Json.arr xs),
        by simp [request_token, pyContains, hany, pyIndex, hl, ht]⟩
    | obj g =>
      exact ⟨jsonDumps (Json.obj g),
        by simp [request_token, pyContains, hany, pyIndex, hl, ht]⟩

/-- Claim C7: the token fetch succeeds only when the status is 200, the
body is valid JSON (an object carrying the configured field), and the field
value is non-empty under Python truthiness; an object or array token value
is serialized back to a JSON string; and each violated requirement produces
its own distinct failure: bad status, not JSON, missing field, empty
field. -/
theorem request_token_contract (tokenField : String) (resp : TokenResponse) :
    ((∃ t, request_token tokenField resp = TokenFetchResult.ok t) ↔
      (resp.status = 200 ∧ ∃ fs v, resp.body = some (Json.obj fs) ∧
        dictLookup fs tokenField = some v ∧ pyTruthy v = true))
    ∧ (resp.status ≠ 200 →
        request_token tokenField resp = TokenFetchResult.badStatus resp.status)
    ∧ (resp.status = 200 → resp.body = none →
        request_token tokenField resp = TokenFetchResult.notJson)
    ∧ (∀ fs, resp.status = 200 → resp.body = some (Json.obj fs) →
        dictLookup fs tokenField = none →
        request_token tokenField resp = TokenFetchResult.missingField)
    ∧ (∀ fs v, resp.status = 200 → resp.body = some (Json.obj fs) →
        dictLookup fs tokenField = some v → pyTruthy v = false →
        request_token tokenField resp = TokenFetchResult.emptyField)
    ∧ (∀ fs v, resp.status = 200 → resp.body = some (Json.obj fs) →
        dictLookup fs tokenField = some v → pyTruthy v = true →
        ((∃ g, v = Json.obj g) ∨ (∃ xs, v = Json.arr xs)) →
        request_token tokenField resp = TokenFetchResult.ok (jsonDumps v)) :=
  ⟨request_token_ok_iff tokenField resp,
   request_token_badStatus tokenField resp,
   request_token_notJson tokenField resp,
   fun fs => request_token_missingField tokenField resp fs,
   fun fs v => request_token_emptyField tokenField resp fs v,
   fun fs v => request_token_serializes tokenField resp fs v⟩

/-- Concrete witness for claim C7: a 200 response whose access_token field
is a non-empty JSON object succeeds with the json.dumps serialization of
that object. -/
theorem request_token_contract_witness :
    request_token "access_token"
        (TokenResponse.mk 200 (some (Json.obj
          [("access_token", Json.obj [("k", Json.str "v")])])))
      = TokenFetchResult.ok (jsonDumps (Json.obj [("k", Json.str "v")])) :=
  (request_token_contract "access_token"
      (TokenResponse.mk 200 (some (Json.obj
        [("access_token", Json.obj [("k", Json.str "v")])])))).2.2.2.2.2
    [("access_token", Json.obj [("k", Json.str "v")])]
    (Json.obj [("k", Json.str "v")]) rfl rfl rfl rfl
    (Or.inl ⟨[("k", Json.str "v")], rfl⟩)

/-- Claim C6: for every configuration and every method that may carry a
body, an inbound body that fails JSON parsing makes the handler return the
400 response with the invalid-JSON payload, write no request record, and
prepare no upstream call. -/
theorem invalid_json_body_400 (cfg : ProxyConfig) (tok : Except String String)
    (method : String) (requestHeaders : Headers) (fullPath : String)
    (h : ¬ (method = "GET" ∨ method = "HEAD" ∨ method = "OPTIONS")) :
    proxy cfg tok method BodyParse.invalid requestHeaders fullPath =
      HandlerTrace.mk (some (400, errorJson "Invalid JSON body")) none none := by
  simp [proxy, readBody, h]

/-- Concrete witness for claim C6: a POST with an unparseable body yields
the 400 trace with no log write and no upstream request. -/
theorem invalid_json_body_400_witness :
    proxy (ProxyConfig.mk "https://t" false false false true [] false)
        (Except.ok "tok") "POST" BodyParse.invalid [("Accept", "a")] "v1/chat" =
      HandlerTrace.mk (some (400, errorJson "Invalid JSON body")) none none :=
  invalid_json_body_400 (ProxyConfig.mk "https://t" false false false true [] false)
    (Except.ok "tok") "POST" [("Accept", "a")] "v1/chat" (by decide)

/-- Claim C1: replaying a request record persisted by the live handler,
with no target-URL override, no header overrides and no token
configuration, and with a given setting of the three transform flags,
prepares exactly the upstream request (method, target URL, post-filter
headers, transformed body) that the live pipeline prepares for the same
original inbound request under the same flags, provided the live pipeline
itself ran without a token configuration. -/
theorem replay_matches_live (cfg : ProxyConfig) (tok rtok : Except String String)
    (method : String) (bp : BodyParse) (requestHeaders : Headers) (fullPath : String)
    (rec : RequestRecord) (s : SentRequest)
    (hm : method = "GET" ∨ method = "POST" ∨ method = "PUT" ∨ method = "DELETE" ∨
      method = "OPTIONS" ∨ method = "HEAD" ∨ method = "PATCH")
    (htoken : cfg.tokenConfigured = false)
    (hlog : (proxy cfg tok method bp requestHeaders fullPath).requestLog = some rec)
    (hsent : (proxy cfg tok method bp requestHeaders fullPath).sent = some s) :
    replay_request_prepared rec none cfg.targetUrl cfg.flattenContent cfg.noToolRoles
      cfg.removeNullToolCalls none false rtok = some s := by
  cases hrb : readBody method bp with
  | none => simp [proxy, hrb] at hlog
  | some incomingBody =>
    simp only [proxy, hrb, htoken, Bool.false_eq_true, if_false] at hlog hsent
    rcases hlog2 : cfg.enableLogging with _ | _
    · rw [hlog2] at hlog
      simp at hlog
    · rw [hlog2] at hlog
      simp only [if_true] at hlog
      have hrec := Option.some.inj hlog
      have hs := Option.some.inj hsent
      subst hrec
      subst hs
      rcases hm with rfl | rfl | rfl | rfl | rfl | rfl | rfl
      · have hnone := Option.some.inj hrb
        subst hnone
        simp [replay_request_prepared, show upperStr "GET" = "GET" from rfl]
      · simp [replay_request_prepared, show upperStr "POST" = "POST" from rfl]
      · simp [replay_request_prepared, show upperStr "PUT" = "PUT" from rfl]
      · simp [replay_request_prepared, show upperStr "DELETE" = "DELETE" from rfl]
      · simp [replay_request_prepared, show upperStr "OPTIONS" = "OPTIONS" from rfl]
      · simp [replay_request_prepared, show upperStr "HEAD" = "HEAD" from rfl]
      · simp [replay_request_prepared, show upperStr "PATCH" = "PATCH" from rfl]

/-- Concrete witness for claim C1: a logged POST with one allowlisted and
one dropped header and a flattenable tool-call body, under all three
transform flags, is replayed into exactly the upstream request the live
pipeline prepared. -/
theorem replay_matches_live_witness :
    (proxy (ProxyConfig.mk "https://t" true true true true [] false) (Except.ok "x")
        "POST"
        (BodyParse.valid (Json.obj [("messages", Json.arr [Json.obj
          [("role", Json.str "tool-call"),
           ("content", Json.arr [Json.obj
             [("type", Json.str "text"), ("text", Json.str "hi")]])]])]))
        [("Authorization", "Bearer k"), ("X-Drop", "v")] "v1/chat").requestLog
      = some (RequestRecord.mk "v1/chat" "POST"
          [("Authorization", "Bearer k"), ("X-Drop", "v")]
          (some (Json.obj [("messages", Json.arr [Json.obj
            [("role", Json.str "tool-call"),
             ("content", Json.arr [Json.obj
               [("type", Json.str "text"), ("text", Json.str "hi")]])]])])))
    ∧ (proxy (ProxyConfig.mk "https://t" true true true true [] false) (Except.ok "x")
        "POST"
        (BodyParse.valid (Json.obj [("messages", Json.arr [Json.obj
          [("role", Json.str "tool-call"),
           ("content", Json.arr [Json.obj
             [("type", Json.str "text"), ("text", Json.str "hi")]])]])]))
        [("Authorization", "Bearer k"), ("X-Drop", "v")] "v1/chat").sent
      = some (SentRequest.mk "POST" "https://t" [("Authorization", "Bearer k")]
          (some (Json.obj [("messages", Json.arr [Json.obj
            [("role", Json.str "user"), ("content", Json.str "hi")]])])))
    ∧ replay_request_prepared
        (RequestRecord.mk "v1/chat" "POST"
          [("Authorization", "Bearer k"), ("X-Drop", "v")]
          (some (Json.obj [("messages", Json.arr [Json.obj
            [("role", Json.str "tool-call"),
             ("content", Json.arr [Json.obj
               [("type", Json.str "text"), ("text", Json.str "hi")]])]])])))
        none "https://t" true true true none false (Except.ok "x")
      = some (SentRequest.mk "POST" "https://t" [("Authorization", "Bearer k")]
          (some (Json.obj [("messages", Json.arr [Json.obj
            [("role", Json.str "user"), ("content", Json.str "hi")]])]))) :=
  ⟨rfl, rfl,
   replay_matches_live (ProxyConfig.mk "https://t" true true true true [] false)
     (Except.ok "x") (Except.ok "x") "POST"
     (BodyParse.valid (Json.obj [("messages", Json.arr [Json.obj
       [("role", Json.str "tool-call"),
        ("content", Json.arr [Json.obj
          [("type", Json.str "text"), ("text", Json.str "hi")]])]])]))
     [("Authorization", "Bearer k"), ("X-Drop", "v")] "v1/chat"
     (RequestRecord.mk "v1/chat" "POST"
       [("Authorization", "Bearer k"), ("X-Drop", "v")]
       (some (Json.obj [("messages", Json.arr [Json.obj
         [("role", Json.str "tool-call"),
          ("content", Json.arr [Json.obj
            [("type", Json.str "text"), ("text", Json.str "hi")]])]])])))
     (SentRequest.mk "POST" "https://t" [("Authorization", "Bearer k")]
       (some (Json.obj [("messages", Json.arr [Json.obj
         [("role", Json.str "user"), ("content", Json.str "hi")]])])))
     (Or.inr (Or.inl rfl)) rfl rfl rfl⟩

/-- Claim C2, counterexample: a mid-stream proxy-authentication failure
after a 200, with logging enabled, is recorded with status 502, not 407. -/
theorem stream_auth_failure_logged_502_counterexample :
    (stream_response_wrapper true false none
        (StreamScript.mk 200 []
          (StreamTail.failed (StreamFailure.proxyError "407 Proxy Authentication Required"))
          "" none)).savedResponses
      = [(502, errorJson
          "Proxy authentication failed (407). Please check your proxy credentials.")]
    ∧ (502 : Nat) ≠ 407 :=
  ⟨rfl, by decide⟩

/-- Claim C2, amended: for every streaming relay that fails mid-stream
after a 200 (proxy error, transport error, or any other exception), the
wrapper yields the chunks received so far followed by exactly one JSON
error chunk describing the failure and ends the stream; when logging is
enabled it records proxy-error and transport-error failures as the logged
response with status 502 (proxy-authentication failures included, also
502), and writes no response record for other exceptions; with logging
disabled nothing is recorded. -/
theorem stream_midstream_failure (log dbg : Bool) (purl : Option String)
    (chunks : List String) (eb : String) (ebj : Option Json) (f : StreamFailure) :
    (stream_response_wrapper log dbg purl
        (StreamScript.mk 200 chunks (StreamTail.failed f) eb ebj)).yielded
      = chunks.filter (fun c => decide (c ≠ ""))
          ++ [jsonDumps (streamFailureContent dbg purl f)]
    ∧ (∃ msg, streamFailureContent dbg purl f = errorJson msg)
    ∧ (∀ p ∈ (stream_response_wrapper log dbg purl
          (StreamScript.mk 200 chunks (StreamTail.failed f) eb ebj)).savedResponses,
        p.1 = 502)
    ∧ (log = true →
        (match f with
         | StreamFailure.otherException _ =>
             (stream_response_wrapper log dbg purl
               (StreamScript.mk 200 chunks (StreamTail.failed f) eb ebj)).savedResponses = []
         | _ =>
             (stream_response_wrapper log dbg purl
               (StreamScript.mk 200 chunks (StreamTail.failed f) eb ebj)).savedResponses
               = [(502, streamFailureContent dbg purl f)]))
    ∧ (log = false →
        (stream_response_wrapper log dbg purl
          (StreamScript.mk 200 chunks (StreamTail.failed f) eb ebj)).savedResponses = []) := by
  refine ⟨by simp [stream_response_wrapper], ?_, ?_, ?_, ?_⟩
  · cases f with
    | proxyError msg =>
      cases hA : isProxyAuthFailure msg
      · exact ⟨"Proxy error: " ++ msg, by simp [streamFailureContent, hA]⟩
      · exact ⟨"Proxy authentication failed (407). Please check your proxy credentials."
            ++ (if dbg then " Details: " ++ msg else ""),
          by simp [streamFailureContent, hA]⟩
    | requestError msg => exact ⟨_, rfl⟩
    | otherException msg => exact ⟨_, rfl⟩
  · intro p hp
    rcases log with _ | _ <;> rcases f with msg | msg | msg <;>
      simp_all [stream_response_wrapper]
  · intro hl
    subst hl
    cases f <;> simp [stream_response_wrapper]
  · intro hl
    subst hl
    cases f <;> simp [stream_response_wrapper]

/-- Concrete witness for the amended claim C2: a mid-stream transport error
with logging enabled is recorded as a single 502 response record. -/
theorem stream_midstream_failure_witness :
    ∃ b, (stream_response_wrapper true false none
        (StreamScript.mk 200 ["a", ""]
          (StreamTail.failed (StreamFailure.requestError "boom")) "" none)).savedResponses
      = [(502, b)] :=
  ⟨streamFailureContent false none (StreamFailure.requestError "boom"),
   (stream_midstream_failure true false none ["a", ""] "" none
     (StreamFailure.requestError "boom")).2.2.2.1 rfl⟩

/-- Claim C3, evaluated at the failing input: with logging enabled, a
streaming exchange that fails after a 200 with a generic exception (neither
a proxy error nor a transport error) yields the single terminal JSON error
chunk but writes no response record at all, leaving the already written
request record without a paired response record. -/
theorem stream_other_exception_writes_no_record :
    stream_response_wrapper true false none
        (StreamScript.mk 200 ["x"]
          (StreamTail.failed (StreamFailure.otherException "boom")) "" none)
      = StreamOutcome.mk ["x", "\x7b\"error\": \"Streaming error: boom\"\x7d"] [] := rfl
